import Mathlib

/-!
Shallow embedding of the `ethernet` Go repository (0x9ef/ethernet):
Ethernet II and IEEE 802.11 frame marshalling and unmarshalling,
802.1Q TCI and 802.11 frame-control bit packing, and CRC-32 FCS
computation.  Go machine integers are modelled as `Nat` with an
explicit `% 2 ^ w` wherever the Go code can overflow; byte buffers are
`List Nat` whose elements are byte values; fallible Go functions
return `Except` or a dedicated result type that also records a Go
runtime panic (slice bounds out of range).
-/

namespace Ethernet

/-- Semantics of Go `copy(dst, src)` for a fixed-size byte array `dst`:
copies `min (len src) (len dst)` bytes, leaving the tail of `dst`. -/
def copyInto (dst src : List Nat) : List Nat :=
  src.take dst.length ++ dst.drop src.length

/-- Semantics of Go `binary.BigEndian.Uint16(b)`: the 16-bit value read
big-endian from the first two bytes of `b`. -/
def bigEndianUint16 (b : List Nat) : Nat :=
  ((b.getD 0 0) <<< 8) ||| (b.getD 1 0)

/-- Semantics of Go `binary.BigEndian.PutUint16`: the two bytes of a 16-bit
value, most significant first; each byte conversion truncates as Go
`byte(v)` does. -/
def putUint16 (v : Nat) : List Nat :=
  [(v >>> 8) % 256, v % 256]

/-- Semantics of Go `binary.BigEndian.PutUint32`: the four bytes of a 32-bit
value, most significant first. -/
def putUint32 (v : Nat) : List Nat :=
  [(v >>> 24) % 256, (v >>> 16) % 256, (v >>> 8) % 256, v % 256]

/-- One step of the reflected CRC-32 bit loop with the IEEE polynomial
(0xEDB88320 is the bit-reversed IEEE 802.3 polynomial), as in Go
`hash/crc32`. -/
def crc32Round (c : Nat) : Nat :=
  if c % 2 = 1 then (c >>> 1) ^^^ 0xEDB88320 else c >>> 1

/-- Feeding one byte into the CRC-32 state: xor the byte into the low
eight bits, then run eight polynomial-division rounds.  This is the
semantics of one step of Go `crc32.simpleUpdate` with the IEEE table. -/
def crc32UpdateByte (c x : Nat) : Nat :=
  let c := c ^^^ (x % 256)
  crc32Round (crc32Round (crc32Round (crc32Round
    (crc32Round (crc32Round (crc32Round (crc32Round c)))))))

/-- Semantics of Go `crc32.ChecksumIEEE`: initial state and final xor-out
are both 0xFFFFFFFF. -/
def crc32 (data : List Nat) : Nat :=
  (data.foldl crc32UpdateByte 0xFFFFFFFF) ^^^ 0xFFFFFFFF

/-- Go `type HardwareAddr [6]byte` (address.go): a fixed array of six
bytes. -/
structure HardwareAddr where
  b0 : Nat
  b1 : Nat
  b2 : Nat
  b3 : Nat
  b4 : Nat
  b5 : Nat
deriving DecidableEq, Repr

/-- The six bytes of the address, in order: `a[:]` in Go. -/
def HardwareAddr.toList (a : HardwareAddr) : List Nat :=
  [a.b0, a.b1, a.b2, a.b3, a.b4, a.b5]

/-- Go `copy(a[:], l)` into a zeroed 6-byte array: bytes beyond the
source list stay zero. -/
def HardwareAddr.ofList (l : List Nat) : HardwareAddr :=
  ⟨l.getD 0 0, l.getD 1 0, l.getD 2 0, l.getD 3 0, l.getD 4 0, l.getD 5 0⟩

/-- Go `type Tag8021q struct { Tpid uint16; Tci uint16 }` (ieee8021q.go). -/
structure Tag8021q where
  Tpid : Nat
  Tci : Nat
deriving DecidableEq, Repr

def maxPcp : Nat := 7
def maxDei : Nat := 1
def maxVlan : Nat := 4095

/-- `Encode8021qTci` (ieee8021q.go): `(vlan << 4) | (dei << 3) | pcp` on
uint16, so each shift wraps modulo 2^16. -/
def Encode8021qTci (pcp dei vlan : Nat) : Nat :=
  (vlan <<< 4) % 65536 ||| (dei <<< 3) % 65536 ||| pcp

/-- `Decode8021qTci` (ieee8021q.go): `(encoded & maxPcp, (encoded >> 3) &
maxDei, (encoded >> 4) & maxVlan)`. -/
def Decode8021qTci (encoded : Nat) : Nat × Nat × Nat :=
  (encoded &&& maxPcp, (encoded >>> 3) &&& maxDei, (encoded >>> 4) &&& maxVlan)

/-- `Encode80211Fc` (ieee80211.go): packs the eleven frame-control
sub-fields into a uint16; every shifted term wraps modulo 2^16. -/
def Encode80211Fc (version ftype subtype tds fds mf rt pm md wep order : Nat) : Nat :=
  (order <<< 15) % 65536 ||| (wep <<< 14) % 65536 |||
    (md <<< 13) % 65536 ||| (pm <<< 12) % 65536 |||
    (rt <<< 11) % 65536 ||| (mf <<< 10) % 65536 |||
    (fds <<< 9) % 65536 ||| (tds <<< 8) % 65536 |||
    (subtype <<< 4) % 65536 ||| (ftype <<< 2) % 65536 ||| version

/-- `Decode80211Fc` (ieee80211.go): the eleven sub-fields extracted by
shift-and-mask, in the documented order version, ftype, subtype, tds,
fds, mf, rt, pm, md, wep, order. -/
def Decode80211Fc (encoded : Nat) : List Nat :=
  [encoded &&& 3,
   (encoded >>> 2) &&& 3,
   (encoded >>> 4) &&& 15,
   (encoded >>> 8) &&& 1,
   (encoded >>> 9) &&& 1,
   (encoded >>> 10) &&& 1,
   (encoded >>> 11) &&& 1,
   (encoded >>> 12) &&& 1,
   (encoded >>> 13) &&& 1,
   (encoded >>> 14) &&& 1,
   (encoded >>> 15) &&& 1]

/-- EtherType constant used as the 802.1Q tag discriminator. -/
def EtherTypeVlan : Nat := 0x8100

/-- Go `type Frame struct` from the tagless-preamble variant of the
Ethernet frame file (the variant the specification describes): dst,
src, optional 802.1Q tag, EtherType, payload, 4-byte FCS. -/
structure Frame where
  dst : HardwareAddr
  src : HardwareAddr
  tag8021q : Option Tag8021q
  etherType : Nat
  payload : List Nat
  fcs : List Nat
deriving DecidableEq, Repr

def minSize : Nat := 64
def minHeaderSize : Nat := 18
def minPayloadSize : Nat := 46
def MaxFrameSize : Nat := 1518

/-- Go `var f Frame` / `new(Frame)`: the zero frame. -/
def Frame.default : Frame :=
  { dst := ⟨0, 0, 0, 0, 0, 0⟩
    src := ⟨0, 0, 0, 0, 0, 0⟩
    tag8021q := none
    etherType := 0
    payload := []
    fcs := [0, 0, 0, 0] }

/-- `NewFrame(src, dst, payload)`: if the payload is shorter than
`minPayloadSize` it is copied into a zeroed 46-byte buffer (so it is
padded with trailing zero bytes), otherwise used as is; the EtherType
defaults to 0x0800 and no 802.1Q tag is attached. -/
def NewFrame (src dst : HardwareAddr) (payload : List Nat) : Frame :=
  let pSz := payload.length
  let b := if pSz < minPayloadSize then
      payload ++ List.replicate (minPayloadSize - pSz) 0
    else payload
  { dst := dst
    src := src
    tag8021q := none
    etherType := 0x0800
    payload := b
    fcs := [0, 0, 0, 0] }

def Frame.Source (f : Frame) : HardwareAddr := f.src

def Frame.Destination (f : Frame) : HardwareAddr := f.dst

def Frame.EtherType (f : Frame) : Nat := f.etherType

def Frame.Payload (f : Frame) : List Nat := f.payload

def Frame.FCS (f : Frame) : List Nat := f.fcs

/-- `Frame.Size()`: tag adds 4 bytes; `minHeaderSize` covers the two
addresses, the EtherType and the FCS. -/
def Frame.Size (f : Frame) : Nat :=
  let tsz := match f.tag8021q with
    | some _ => 4
    | none => 0
  minHeaderSize + tsz + f.payload.length

/-- `Frame.marshal(fcs bool)`: appends dst, src, the optional 802.1Q tag
(TPID then TCI, each big-endian), the EtherType (big-endian) and the
payload; when `fcs` is true it then computes CRC-32 over every byte
appended so far, stores the four big-endian checksum bytes in the
frame's fcs field and appends them.  Returns the buffer and the
(possibly updated) frame; the Go pooled scratch buffer and the stray
`fmt.Println` have no observable effect on the result. -/
def Frame.marshal (f : Frame) (fcs : Bool) : List Nat × Frame :=
  let b : List Nat := []
  let b := b ++ f.dst.toList
  let b := b ++ f.src.toList
  let b := match f.tag8021q with
    | some tag => (b ++ [(tag.Tpid >>> 8) % 256, tag.Tpid % 256]) ++
        [(tag.Tci >>> 8) % 256, tag.Tci % 256]
    | none => b
  let b := b ++ [(f.etherType >>> 8) % 256, f.etherType % 256]
  let b := b ++ f.payload
  if fcs then
    let sum := crc32 b
    let fcsBytes := [(sum >>> 24) % 256, (sum >>> 16) % 256, (sum >>> 8) % 256, sum % 256]
    (b ++ fcsBytes, { f with fcs := fcsBytes })
  else (b, f)

/-- `Frame.Marshal()` calls `marshal(true)`. -/
def Frame.Marshal (f : Frame) : List Nat × Frame :=
  f.marshal true

/-- `Unmarshal(b, f)`: fails with `io.ErrUnexpectedEOF` when the input is
shorter than `minSize` (64); otherwise reads dst (6 bytes), src (6
bytes), then the big-endian 16-bit discriminator at offset 12.  If it
equals 0x8100 the tag is populated (TCI at offset 14, real EtherType
at offset 16) and the header is 18 bytes, else the discriminator is
the EtherType and the header is 14 bytes.  The bytes between the
header and the trailing 4 become the payload and the trailing 4 bytes
are copied into the fcs field. -/
def Unmarshal (b : List Nat) (f : Frame) : Except Unit Frame :=
  let sz := b.length
  if sz < minSize then .error ()
  else
    let f := { f with dst := HardwareAddr.ofList (b.take 6) }
    let f := { f with src := HardwareAddr.ofList ((b.drop 6).take 6) }
    let etype := bigEndianUint16 ((b.drop 12).take 2)
    let fn : Frame × Nat :=
      if etype = EtherTypeVlan then
        ({ f with
            tag8021q := some { Tpid := etype, Tci := bigEndianUint16 ((b.drop 14).take 2) }
            etherType := bigEndianUint16 ((b.drop 16).take 2) }, 18)
      else ({ f with etherType := etype }, 14)
    let f := fn.1
    let n := fn.2
    let payload := (b.drop n).take (sz - 4 - n)
    let f := { f with payload := payload }
    let f := { f with fcs := copyInto f.fcs (b.drop (n + payload.length)) }
    .ok f

/-- Go `type Frame80211 struct` (frame80211.go, addr1..addr4 variant):
frame control, duration, four addresses, sequence control, payload,
FCS. -/
structure Frame80211 where
  fc : Nat
  duration : Nat
  addr1 : HardwareAddr
  addr2 : HardwareAddr
  addr3 : HardwareAddr
  sc : Nat
  addr4 : HardwareAddr
  payload : List Nat
  fcs : List Nat
deriving DecidableEq, Repr

def min80211Size : Nat := 30

/-- `NewFrame80211(addr1, addr2, addr3, addr4, payload)`: note that the
Go code stores `addr1` into the `addr2` field, so the `addr2`
argument is dropped. -/
def NewFrame80211 (addr1 addr2 addr3 addr4 : HardwareAddr) (payload : List Nat) :
    Frame80211 :=
  { fc := 0
    duration := 0
    addr1 := addr1
    addr2 := addr1
    addr3 := addr3
    sc := 0
    addr4 := addr4
    payload := payload
    fcs := [0, 0, 0, 0] }

/-- `Frame80211.Receiver()` returns the addr1 field. -/
def Frame80211.Receiver (f : Frame80211) : HardwareAddr := f.addr1

/-- `Frame80211.Transmitter()` returns the addr2 field. -/
def Frame80211.Transmitter (f : Frame80211) : HardwareAddr := f.addr2

/-- `Frame80211.Size()`: fc (2) + duration (2) + three addresses (18) +
sequence control (2) + addr4 (6) + payload + FCS (4), with no
conditional terms. -/
def Frame80211.Size (f : Frame80211) : Nat :=
  2 + 2 + 6 + 6 + 6 + 2 + 6 + f.payload.length + 4

/-- `Frame80211.Marshal()`: writes fc and duration big-endian, addr1,
addr2, addr3, sc big-endian, addr4, the payload, then the big-endian
CRC-32 of everything written so far; the checksum bytes are also
stored in the frame's fcs field.  Every field is written
unconditionally; the Go code fills a buffer of size `Size()` at
successive offsets, which is the concatenation below. -/
def Frame80211.Marshal (f : Frame80211) : List Nat × Frame80211 :=
  let body := putUint16 f.fc ++ putUint16 f.duration ++ f.addr1.toList ++
    f.addr2.toList ++ f.addr3.toList ++ putUint16 f.sc ++ f.addr4.toList ++
    f.payload
  let fcsVal := crc32 body
  (body ++ putUint32 fcsVal, { f with fcs := putUint32 fcsVal })

/-- Outcome of `Unmarshal80211`: the truncation error
(`io.ErrUnexpectedEOF`), a Go runtime panic (slice bounds out of
range), or a parsed frame. -/
inductive Result80211 where
  | truncated : Result80211
  | panicked : Result80211
  | ok : Frame80211 → Result80211
deriving DecidableEq, Repr

def Result80211.isOk : Result80211 → Bool
  | .ok _ => true
  | _ => false

/-- `Unmarshal80211(b)`: errors when the input is shorter than
`min80211Size` (30); reads the 30-byte fixed header, then evaluates
the Go slice `b[30 : sz-4]`, which panics when `sz - 4 < 30` (inputs
of length 30..33).  The Go code reads `pSz := len(f.payload)` from the
still-fresh frame, i.e. 0, before assigning the payload, so the final
`copy(f.fcs[:], b[n:])` with `n = 30 + pSz = 30` copies the four bytes
at offsets 30..33 rather than the trailing four. -/
def Unmarshal80211 (b : List Nat) : Result80211 :=
  let sz := b.length
  let pSz := ([] : List Nat).length
  if sz < min80211Size then .truncated
  else if sz - 4 < 30 then .panicked
  else
    .ok { fc := bigEndianUint16 (b.take 2)
          duration := bigEndianUint16 ((b.drop 2).take 2)
          addr1 := HardwareAddr.ofList ((b.drop 4).take 6)
          addr2 := HardwareAddr.ofList ((b.drop 10).take 6)
          addr3 := HardwareAddr.ofList ((b.drop 16).take 6)
          sc := bigEndianUint16 ((b.drop 22).take 2)
          addr4 := HardwareAddr.ofList ((b.drop 24).take 6)
          payload := (b.drop 30).take (sz - 4 - 30)
          fcs := copyInto [0, 0, 0, 0] (b.drop (30 + pSz)) }

/-- Modelled from the spec: the serialized 802.11 size with value-driven
optional-field presence as the specification and the repository's own
test file describe it — sequence control (2) only when non-zero, addr4
(6) only when non-empty, QoS control (2) only when non-zero, HT
control (4) only when non-zero.  The QoS and HT fields do not exist on
the `Frame80211` struct under src, so they are passed separately. -/
def size80211Spec (f : Frame80211) (qos ht : Nat) : Nat :=
  2 + 2 + 6 + 6 + 6 +
    (if f.sc ≠ 0 then 2 else 0) +
    (if f.addr4 ≠ ⟨0, 0, 0, 0, 0, 0⟩ then 6 else 0) +
    (if qos ≠ 0 then 2 else 0) +
    (if ht ≠ 0 then 4 else 0) +
    f.payload.length + 4

end Ethernet

/-! ## Helper lemmas -/

namespace Ethernet

lemma lor_add_pow2 (k a b : Nat) (h : b < 2 ^ k) (hd : a % 2 ^ k = 0) :
    a ||| b = a + b := by
  have ha : a = 2 ^ k * (a / 2 ^ k) := (Nat.mul_div_cancel' (Nat.dvd_of_mod_eq_zero hd)).symm
  rw [ha, ← Nat.mul_add_lt_is_or h]

lemma and_mask_eq_mod {x : Nat} (m n : Nat) (hm : m = 2 ^ n - 1) : x &&& m = x % 2 ^ n := by
  subst hm
  exact Nat.and_pow_two_sub_one_eq_mod x n

lemma encode8021q_eq (pcp dei vlan : Nat) (h1 : pcp ≤ 7) (h2 : dei ≤ 1) (h3 : vlan ≤ 4095) :
    Encode8021qTci pcp dei vlan = vlan * 16 + dei * 8 + pcp := by
  unfold Encode8021qTci
  rw [Nat.shiftLeft_eq, Nat.shiftLeft_eq]
  norm_num
  rw [Nat.mod_eq_of_lt (by omega), Nat.mod_eq_of_lt (by omega)]
  have e1 : vlan * 16 ||| dei * 8 = vlan * 16 + dei * 8 :=
    lor_add_pow2 4 _ _ (by omega) (by omega)
  rw [e1]
  have e2 : vlan * 16 + dei * 8 ||| pcp = vlan * 16 + dei * 8 + pcp :=
    lor_add_pow2 3 _ _ (by omega) (by omega)
  rw [e2]

lemma encode80211fc_eq (version ftype subtype tds fds mf rt pm md wep order : Nat)
    (h1 : version ≤ 3) (h2 : ftype ≤ 3) (h3 : subtype ≤ 15) (h4 : tds ≤ 1)
    (h5 : fds ≤ 1) (h6 : mf ≤ 1) (h7 : rt ≤ 1) (h8 : pm ≤ 1) (h9 : md ≤ 1)
    (h10 : wep ≤ 1) (h11 : order ≤ 1) :
    Encode80211Fc version ftype subtype tds fds mf rt pm md wep order =
    order * 32768 + wep * 16384 + md * 8192 + pm * 4096 + rt * 2048 + mf * 1024 + fds * 512 + tds * 256 + subtype * 16 + ftype * 4 + version := by
  unfold Encode80211Fc
  rw [Nat.shiftLeft_eq, Nat.shiftLeft_eq, Nat.shiftLeft_eq, Nat.shiftLeft_eq, Nat.shiftLeft_eq, Nat.shiftLeft_eq, Nat.shiftLeft_eq, Nat.shiftLeft_eq, Nat.shiftLeft_eq, Nat.shiftLeft_eq]
  norm_num
  rw [Nat.mod_eq_of_lt (by omega), Nat.mod_eq_of_lt (by omega), Nat.mod_eq_of_lt (by omega), Nat.mod_eq_of_lt (by omega), Nat.mod_eq_of_lt (by omega), Nat.mod_eq_of_lt (by omega), Nat.mod_eq_of_lt (by omega), Nat.mod_eq_of_lt (by omega), Nat.mod_eq_of_lt (by omega), Nat.mod_eq_of_lt (by omega)]
  have e1 : order * 32768 ||| wep * 16384 = order * 32768 + wep * 16384 :=
    lor_add_pow2 15 _ _ (by omega) (by omega)
  rw [e1]
  have e2 : order * 32768 + wep * 16384 ||| md * 8192 = order * 32768 + wep * 16384 + md * 8192 :=
    lor_add_pow2 14 _ _ (by omega) (by omega)
  rw [e2]
  have e3 : order * 32768 + wep * 16384 + md * 8192 ||| pm * 4096 = order * 32768 + wep * 16384 + md * 8192 + pm * 4096 :=
    lor_add_pow2 13 _ _ (by omega) (by omega)
  rw [e3]
  have e4 : order * 32768 + wep * 16384 + md * 8192 + pm * 4096 ||| rt * 2048 = order * 32768 + wep * 16384 + md * 8192 + pm * 4096 + rt * 2048 :=
    lor_add_pow2 12 _ _ (by omega) (by omega)
  rw [e4]
  have e5 : order * 32768 + wep * 16384 + md * 8192 + pm * 4096 + rt * 2048 ||| mf * 1024 = order * 32768 + wep * 16384 + md * 8192 + pm * 4096 + rt * 2048 + mf * 1024 :=
    lor_add_pow2 11 _ _ (by omega) (by omega)
  rw [e5]
  have e6 : order * 32768 + wep * 16384 + md * 8192 + pm * 4096 + rt * 2048 + mf * 1024 ||| fds * 512 = order * 32768 + wep * 16384 + md * 8192 + pm * 4096 + rt * 2048 + mf * 1024 + fds * 512 :=
    lor_add_pow2 10 _ _ (by omega) (by omega)
  rw [e6]
  have e7 : order * 32768 + wep * 16384 + md * 8192 + pm * 4096 + rt * 2048 + mf * 1024 + fds * 512 ||| tds * 256 = order * 32768 + wep * 16384 + md * 8192 + pm * 4096 + rt * 2048 + mf * 1024 + fds * 512 + tds * 256 :=
    lor_add_pow2 9 _ _ (by omega) (by omega)
  rw [e7]
  have e8 : order * 32768 + wep * 16384 + md * 8192 + pm * 4096 + rt * 2048 + mf * 1024 + fds * 512 + tds * 256 ||| subtype * 16 = order * 32768 + wep * 16384 + md * 8192 + pm * 4096 + rt * 2048 + mf * 1024 + fds * 512 + tds * 256 + subtype * 16 :=
    lor_add_pow2 8 _ _ (by omega) (by omega)
  rw [e8]
  have e9 : order * 32768 + wep * 16384 + md * 8192 + pm * 4096 + rt * 2048 + mf * 1024 + fds * 512 + tds * 256 + subtype * 16 ||| ftype * 4 = order * 32768 + wep * 16384 + md * 8192 + pm * 4096 + rt * 2048 + mf * 1024 + fds * 512 + tds * 256 + subtype * 16 + ftype * 4 :=
    lor_add_pow2 4 _ _ (by omega) (by omega)
  rw [e9]
  have e10 : order * 32768 + wep * 16384 + md * 8192 + pm * 4096 + rt * 2048 + mf * 1024 + fds * 512 + tds * 256 + subtype * 16 + ftype * 4 ||| version = order * 32768 + wep * 16384 + md * 8192 + pm * 4096 + rt * 2048 + mf * 1024 + fds * 512 + tds * 256 + subtype * 16 + ftype * 4 + version :=
    lor_add_pow2 2 _ _ (by omega) (by omega)
  rw [e10]

lemma marshal_length_untagged (f : Frame) (h : f.tag8021q = none) :
    ((f.Marshal).1).length = 18 + f.payload.length := by
  simp [Frame.Marshal, Frame.marshal, h, putUint16, putUint32, HardwareAddr.toList]
  omega

lemma newFrame_payload_length (src dst : HardwareAddr) (p : List Nat) :
    (NewFrame src dst p).payload.length = if p.length < 46 then 46 else p.length := by
  simp only [NewFrame, minPayloadSize]
  split <;> simp_all <;> omega

lemma unmarshal_fields (b : List Nat) (f0 : Frame) (h : ¬ b.length < minSize) :
    ∃ f2, Unmarshal b f0 = .ok f2 ∧
      f2.dst = HardwareAddr.ofList (b.take 6) ∧
      f2.src = HardwareAddr.ofList ((b.drop 6).take 6) ∧
      f2.tag8021q = (if bigEndianUint16 ((b.drop 12).take 2) = EtherTypeVlan then
          some ⟨EtherTypeVlan, bigEndianUint16 ((b.drop 14).take 2)⟩
        else f0.tag8021q) ∧
      f2.etherType = (if bigEndianUint16 ((b.drop 12).take 2) = EtherTypeVlan then
          bigEndianUint16 ((b.drop 16).take 2)
        else bigEndianUint16 ((b.drop 12).take 2)) := by
  by_cases hv : bigEndianUint16 ((b.drop 12).take 2) = EtherTypeVlan <;>
    refine ⟨_, by simp [Unmarshal, h, hv]; rfl, ?_, ?_, ?_, ?_⟩ <;>
    simp [Unmarshal, h, hv]

/-- The wire layout claim C1 describes, written out from the claim: the
destination address, the source address, for a tagged frame the TPID
and then the TCI in big-endian, the EtherType in big-endian, and the
payload verbatim. -/
def claimC1Body (f : Frame) : List Nat :=
  f.dst.toList ++ f.src.toList ++
    (match f.tag8021q with
      | some tag => putUint16 tag.Tpid ++ putUint16 tag.Tci
      | none => []) ++
    putUint16 f.etherType ++ f.payload

/-- The `positive_minimum` case of the repository's own
`TestFrame80211Marshal`: all optional fields zero or empty, five-byte
payload; the test expects a serialized length of 26 + 5 = 31. -/
def c4Frame : Frame80211 :=
  { fc := 0x16
    duration := 0x10
    addr1 := ⟨127, 127, 127, 50, 50, 50⟩
    addr2 := ⟨255, 255, 255, 50, 50, 50⟩
    addr3 := ⟨255, 255, 255, 50, 50, 20⟩
    sc := 0
    addr4 := ⟨0, 0, 0, 0, 0, 0⟩
    payload := [72, 69, 76, 76, 79]
    fcs := [0, 0, 0, 0] }

end Ethernet

/-! ## Claim theorems -/

namespace Ethernet

/-- Claim C1: for every Ethernet frame, `Marshal` produces the buffer
destination (6 bytes), source (6 bytes), optional tag as big-endian
TPID then big-endian TCI, big-endian EtherType, the payload verbatim,
and finally the four big-endian bytes of the CRC-32 (IEEE polynomial)
of every preceding byte; the same four checksum bytes are stored in the
frame's fcs field as a side effect. -/
theorem frame_marshal_layout_c1 (f : Frame) :
    (f.Marshal).1 = claimC1Body f ++ putUint32 (crc32 (claimC1Body f)) ∧
    (f.Marshal).2.fcs = putUint32 (crc32 (claimC1Body f)) := by
  cases h : f.tag8021q <;>
    simp [Frame.Marshal, Frame.marshal, claimC1Body, putUint16, putUint32, h]

/-- Claim C2: for every source, destination and payload of length at
most 1500, constructing a frame, marshaling it and unmarshaling the
bytes yields a frame whose Source is the original source and whose
Destination is the original destination. -/
theorem roundtrip_addresses_c2 (src dst : HardwareAddr) (payload : List Nat)
    (h : payload.length ≤ 1500) :
    ∃ f2, Unmarshal ((NewFrame src dst payload).Marshal).1 Frame.default = .ok f2 ∧
      f2.Source = src ∧ f2.Destination = dst := by
  have hlen : ¬ ((NewFrame src dst payload).Marshal).1.length < minSize := by
    rw [marshal_length_untagged _ (by simp [NewFrame])]
    have := newFrame_payload_length src dst payload
    simp only [minSize]
    split at this <;> omega
  obtain ⟨f2, he, hdst, hsrc, _, _⟩ :=
    unmarshal_fields ((NewFrame src dst payload).Marshal).1 Frame.default hlen
  have h6 : ((NewFrame src dst payload).Marshal).1.take 6 = dst.toList := by
    simp [Frame.Marshal, Frame.marshal, NewFrame, HardwareAddr.toList]
  have h12 : (((NewFrame src dst payload).Marshal).1.drop 6).take 6 = src.toList := by
    simp [Frame.Marshal, Frame.marshal, NewFrame, HardwareAddr.toList]
  refine ⟨f2, he, ?_, ?_⟩
  · rw [Frame.Source, hsrc, h12]
    cases src
    rfl
  · rw [Frame.Destination, hdst, h6]
    cases dst
    rfl

/-- Witness for C2 at concrete addresses and the empty payload. -/
theorem roundtrip_addresses_c2_witness :
    ([] : List Nat).length ≤ 1500 ∧
    (∃ f2, Unmarshal ((NewFrame ⟨1, 2, 3, 4, 5, 6⟩ ⟨7, 8, 9, 10, 11, 12⟩ []).Marshal).1
        Frame.default = .ok f2 ∧
      f2.Source = (⟨1, 2, 3, 4, 5, 6⟩ : HardwareAddr) ∧
      f2.Destination = (⟨7, 8, 9, 10, 11, 12⟩ : HardwareAddr)) :=
  ⟨by decide, roundtrip_addresses_c2 ⟨1, 2, 3, 4, 5, 6⟩ ⟨7, 8, 9, 10, 11, 12⟩ [] (by decide)⟩

/-- Claim C3 (code bug): on the 35-byte input of thirty zero bytes
followed by 1,2,3,4,5, `Unmarshal80211` accepts and sets the payload to
the byte between the 30-byte header and the trailing four, as the claim
says, but sets the fcs field to the four bytes at offsets 30..33
(because the Go code reads the payload length before assigning the
payload) instead of the trailing four bytes 2,3,4,5 the claim
requires. -/
theorem unmarshal80211_fcs_code_bug_c3 :
    Unmarshal80211 (List.replicate 30 0 ++ [1, 2, 3, 4, 5]) =
      .ok { fc := 0, duration := 0, addr1 := ⟨0, 0, 0, 0, 0, 0⟩,
            addr2 := ⟨0, 0, 0, 0, 0, 0⟩, addr3 := ⟨0, 0, 0, 0, 0, 0⟩,
            sc := 0, addr4 := ⟨0, 0, 0, 0, 0, 0⟩,
            payload := [1], fcs := [1, 2, 3, 4] } ∧
    (List.replicate 30 0 ++ [1, 2, 3, 4, 5]).drop
      ((List.replicate 30 (0 : Nat) ++ [1, 2, 3, 4, 5]).length - 4) = [2, 3, 4, 5] ∧
    ([1, 2, 3, 4] : List Nat) ≠ [2, 3, 4, 5] := by
  decide

/-- Claim C4 (code bug): on the repository test's `positive_minimum`
frame (all optional fields zero or empty, 5-byte payload) the code's
`Size` and `Marshal` count sequence control and addr4 unconditionally
and produce 39 bytes, while the value-driven conditional layout the
claim (and the repository's own test, expecting 26 + 5) describes gives
31 bytes. -/
theorem marshal80211_unconditional_code_bug_c4 :
    c4Frame.Size = 39 ∧ ((c4Frame.Marshal).1).length = 39 ∧
    size80211Spec c4Frame 0 0 = 31 := by
  decide

/-- Claim C5 as amended: Ethernet `Unmarshal` fails with the truncation
error exactly on inputs shorter than 64 bytes and succeeds otherwise;
`Unmarshal80211` fails with the truncation error exactly on inputs
shorter than 30 bytes, panics on slice bounds for lengths 30..33, and
succeeds exactly on lengths at least 34; both fail on any input of
length 10. -/
theorem unmarshal_error_conditions_c5 (b : List Nat) (f0 : Frame) :
    (Unmarshal b f0 = .error () ↔ b.length < 64) ∧
    ((∃ f2, Unmarshal b f0 = .ok f2) ↔ 64 ≤ b.length) ∧
    (Unmarshal80211 b = .truncated ↔ b.length < 30) ∧
    (Unmarshal80211 b = .panicked ↔ (30 ≤ b.length ∧ b.length < 34)) ∧
    ((Unmarshal80211 b).isOk = true ↔ 34 ≤ b.length) ∧
    (b.length = 10 → Unmarshal b f0 = .error () ∧ Unmarshal80211 b = .truncated) := by
  refine ⟨?_, ?_, ?_, ?_, ?_, ?_⟩
  · by_cases hc : b.length < 64 <;> simp [Unmarshal, minSize, hc]
  · by_cases hc : b.length < 64 <;> simp [Unmarshal, minSize, hc] <;> omega
  · by_cases h1 : b.length < 30
    · simp [Unmarshal80211, min80211Size, h1]
    · by_cases h2 : b.length - 4 < 30 <;>
        simp [Unmarshal80211, min80211Size, h1, h2] <;> omega
  · by_cases h1 : b.length < 30
    · simp [Unmarshal80211, min80211Size, h1]
    · by_cases h2 : b.length - 4 < 30 <;>
        simp [Unmarshal80211, min80211Size, h1, h2, Result80211.isOk] <;> omega
  · by_cases h1 : b.length < 30
    · simp [Unmarshal80211, min80211Size, h1, Result80211.isOk]
      omega
    · by_cases h2 : b.length - 4 < 30 <;>
        simp [Unmarshal80211, min80211Size, h1, h2, Result80211.isOk] <;> omega
  · intro h10
    constructor
    · simp [Unmarshal, minSize, h10]
    · simp [Unmarshal80211, min80211Size, h10]

/-- Counterexample to C5 as stated: the all-zero input of length 30 is
not shorter than the 802.11 minimum size, yet `Unmarshal80211` does not
succeed on it — it hits the Go slice-bounds panic. -/
theorem unmarshal80211_length30_panics_c5_cex :
    30 ≤ (List.replicate 30 (0 : Nat)).length ∧
    Unmarshal80211 (List.replicate 30 (0 : Nat)) = .panicked ∧
    (Unmarshal80211 (List.replicate 30 (0 : Nat))).isOk = false := by
  decide

/-- Claim C6: decoding the encoded 802.1Q TCI is the identity on
in-range inputs, and encoding PCP 3, DEI 0, VLAN 1024 gives 0x4003. -/
theorem tci_roundtrip_c6 (pcp dei vlan : Nat)
    (h1 : pcp ≤ 7) (h2 : dei ≤ 1) (h3 : vlan ≤ 4095) :
    Decode8021qTci (Encode8021qTci pcp dei vlan) = (pcp, dei, vlan) ∧
    Encode8021qTci 3 0 1024 = 0x4003 := by
  constructor
  · rw [encode8021q_eq pcp dei vlan h1 h2 h3]
    unfold Decode8021qTci maxPcp maxDei maxVlan
    rw [and_mask_eq_mod 7 3 (by norm_num), and_mask_eq_mod 1 1 (by norm_num),
      and_mask_eq_mod 4095 12 (by norm_num), Nat.shiftRight_eq_div_pow,
      Nat.shiftRight_eq_div_pow]
    norm_num
    exact ⟨by omega, by omega, by omega⟩
  · decide

/-- Witness for C6 at PCP 3, DEI 0, VLAN 1024. -/
theorem tci_roundtrip_c6_witness :
    (3 : Nat) ≤ 7 ∧ (0 : Nat) ≤ 1 ∧ (1024 : Nat) ≤ 4095 ∧
    (Decode8021qTci (Encode8021qTci 3 0 1024) = (3, 0, 1024) ∧
      Encode8021qTci 3 0 1024 = 0x4003) :=
  ⟨by decide, by decide, by decide,
    tci_roundtrip_c6 3 0 1024 (by decide) (by decide) (by decide)⟩

/-- Claim C7: decoding the encoded 802.11 frame-control word reproduces
all eleven in-range sub-fields exactly, in the documented order. -/
theorem fc_roundtrip_c7 (version ftype subtype tds fds mf rt pm md wep order : Nat)
    (h1 : version ≤ 3) (h2 : ftype ≤ 3) (h3 : subtype ≤ 15) (h4 : tds ≤ 1)
    (h5 : fds ≤ 1) (h6 : mf ≤ 1) (h7 : rt ≤ 1) (h8 : pm ≤ 1) (h9 : md ≤ 1)
    (h10 : wep ≤ 1) (h11 : order ≤ 1) :
    Decode80211Fc (Encode80211Fc version ftype subtype tds fds mf rt pm md wep order) =
      [version, ftype, subtype, tds, fds, mf, rt, pm, md, wep, order] := by
  rw [encode80211fc_eq version ftype subtype tds fds mf rt pm md wep order
    h1 h2 h3 h4 h5 h6 h7 h8 h9 h10 h11]
  unfold Decode80211Fc
  simp only [and_mask_eq_mod 3 2 (by norm_num), and_mask_eq_mod 15 4 (by norm_num),
    Nat.and_one_is_mod, Nat.shiftRight_eq_div_pow]
  norm_num
  refine ⟨by omega, by omega, by omega, by omega, by omega, by omega, by omega,
    by omega, by omega, by omega, by omega⟩

/-- Witness for C7 at a concrete in-range tuple. -/
theorem fc_roundtrip_c7_witness :
    (1 : Nat) ≤ 3 ∧ (2 : Nat) ≤ 3 ∧ (9 : Nat) ≤ 15 ∧ (1 : Nat) ≤ 1 ∧
    (0 : Nat) ≤ 1 ∧ (1 : Nat) ≤ 1 ∧ (0 : Nat) ≤ 1 ∧ (1 : Nat) ≤ 1 ∧
    (0 : Nat) ≤ 1 ∧ (1 : Nat) ≤ 1 ∧ (1 : Nat) ≤ 1 ∧
    Decode80211Fc (Encode80211Fc 1 2 9 1 0 1 0 1 0 1 1) =
      [1, 2, 9, 1, 0, 1, 0, 1, 0, 1, 1] :=
  ⟨by decide, by decide, by decide, by decide, by decide, by decide, by decide,
    by decide, by decide, by decide, by decide,
    fc_roundtrip_c7 1 2 9 1 0 1 0 1 0 1 1 (by decide) (by decide) (by decide)
      (by decide) (by decide) (by decide) (by decide) (by decide) (by decide)
      (by decide) (by decide)⟩

/-- Claim C8: for every input `Unmarshal` accepts (length at least 64,
unmarshaled into a fresh frame), if the big-endian 16-bit value at
offset 12 is 0x8100 the resulting frame carries a tag with TPID 0x8100
and the TCI read at offset 14, and its EtherType is read at offset 16;
otherwise the frame has no tag and its EtherType is the value at
offset 12. -/
theorem unmarshal_vlan_discrimination_c8 (b : List Nat) (h : ¬ b.length < minSize) :
    ∃ f2, Unmarshal b Frame.default = .ok f2 ∧
      (bigEndianUint16 ((b.drop 12).take 2) = 0x8100 →
        f2.tag8021q = some ⟨0x8100, bigEndianUint16 ((b.drop 14).take 2)⟩ ∧
        f2.etherType = bigEndianUint16 ((b.drop 16).take 2)) ∧
      (bigEndianUint16 ((b.drop 12).take 2) ≠ 0x8100 →
        f2.tag8021q = none ∧ f2.etherType = bigEndianUint16 ((b.drop 12).take 2)) := by
  obtain ⟨f2, he, _, _, htag, het⟩ := unmarshal_fields b Frame.default h
  refine ⟨f2, he, fun hv => ?_, fun hv => ?_⟩
  · rw [htag, het]
    simp [hv, EtherTypeVlan]
  · rw [htag, het]
    simp [hv, EtherTypeVlan, Frame.default]

/-- Witness for C8 on the all-zero input of length 64. -/
theorem unmarshal_vlan_discrimination_c8_witness :
    ¬ (List.replicate 64 (0 : Nat)).length < minSize ∧
    (∃ f2, Unmarshal (List.replicate 64 (0 : Nat)) Frame.default = .ok f2 ∧
      (bigEndianUint16 (((List.replicate 64 (0 : Nat)).drop 12).take 2) = 0x8100 →
        f2.tag8021q = some ⟨0x8100,
          bigEndianUint16 (((List.replicate 64 (0 : Nat)).drop 14).take 2)⟩ ∧
        f2.etherType = bigEndianUint16 (((List.replicate 64 (0 : Nat)).drop 16).take 2)) ∧
      (bigEndianUint16 (((List.replicate 64 (0 : Nat)).drop 12).take 2) ≠ 0x8100 →
        f2.tag8021q = none ∧
        f2.etherType = bigEndianUint16 (((List.replicate 64 (0 : Nat)).drop 12).take 2))) :=
  ⟨by decide, unmarshal_vlan_discrimination_c8 (List.replicate 64 (0 : Nat)) (by decide)⟩

/-- Claim C9: for every payload shorter than 46 bytes, `NewFrame` stores
a 46-byte payload equal to the input followed by zero bytes (never
truncating it), the frame is untagged, and marshaling it yields exactly
64 bytes. -/
theorem newframe_padding_c9 (src dst : HardwareAddr) (payload : List Nat)
    (h : payload.length < 46) :
    (NewFrame src dst payload).payload =
      payload ++ List.replicate (46 - payload.length) 0 ∧
    (NewFrame src dst payload).payload.length = 46 ∧
    (NewFrame src dst payload).tag8021q = none ∧
    ((NewFrame src dst payload).Marshal).1.length = 64 := by
  refine ⟨by simp [NewFrame, minPayloadSize, h], ?_, by simp [NewFrame], ?_⟩
  · rw [newFrame_payload_length]
    simp [h]
  · rw [marshal_length_untagged _ (by simp [NewFrame]), newFrame_payload_length]
    simp [h]

/-- Witness for C9 at a concrete 3-byte payload. -/
theorem newframe_padding_c9_witness :
    ([1, 2, 3] : List Nat).length < 46 ∧
    ((NewFrame ⟨1, 2, 3, 4, 5, 6⟩ ⟨7, 8, 9, 10, 11, 12⟩ [1, 2, 3]).payload =
      [1, 2, 3] ++ List.replicate (46 - ([1, 2, 3] : List Nat).length) 0 ∧
    (NewFrame ⟨1, 2, 3, 4, 5, 6⟩ ⟨7, 8, 9, 10, 11, 12⟩ [1, 2, 3]).payload.length = 46 ∧
    (NewFrame ⟨1, 2, 3, 4, 5, 6⟩ ⟨7, 8, 9, 10, 11, 12⟩ [1, 2, 3]).tag8021q = none ∧
    ((NewFrame ⟨1, 2, 3, 4, 5, 6⟩ ⟨7, 8, 9, 10, 11, 12⟩ [1, 2, 3]).Marshal).1.length = 64) :=
  ⟨by decide, newframe_padding_c9 ⟨1, 2, 3, 4, 5, 6⟩ ⟨7, 8, 9, 10, 11, 12⟩ [1, 2, 3] (by decide)⟩

/-- Claim C10: `NewFrame80211` stores its first address argument in the
addr2 (transmitter) field, so Transmitter and Receiver both return the
first argument on every freshly constructed frame and the addr2
argument is never stored — two calls differing only in the addr2
argument build identical frames. -/
theorem newframe80211_transmitter_c10 (a1 a2 a2' a3 a4 : HardwareAddr) (p : List Nat) :
    (NewFrame80211 a1 a2 a3 a4 p).Transmitter = a1 ∧
    (NewFrame80211 a1 a2 a3 a4 p).Receiver = a1 ∧
    (NewFrame80211 a1 a2 a3 a4 p).Receiver = (NewFrame80211 a1 a2 a3 a4 p).Transmitter ∧
    NewFrame80211 a1 a2 a3 a4 p = NewFrame80211 a1 a2' a3 a4 p :=
  ⟨rfl, rfl, rfl, rfl⟩

end Ethernet
